import Mathlib

/-!
Shallow embedding of the drum-module firmware `src/main.c`
(bateriaChokev3.c): the constant tables, the per-pad state machine of
`loop()`, and the serial event emission of `midiNoteOn` / `midiNoteOff`.

Modelling conventions, each justified at its definition:
* `int` / `long` values are modelled as `Nat` where the source keeps them
  non-negative, `Int` where a C expression can go negative; C `long`
  division (truncation toward zero) is `Int.tdiv`.
* `unsigned long` millisecond arithmetic is 32-bit: the elapsed-time
  expression `a - b` of the source is `usub a b = (a - b) mod 2^32`.
* Every float expression of the source (`gainFactor`, the
  `RETRIGGER_MIN_MULTIPLIER = 1.5` products, the classifier ratios `1.1`
  and `0.05`) is replaced by the exact integer predicate it decides: for
  all values the source can feed them (readings 0..1023, thresholds
  below 1024) the binary32/binary64 rounding error is far smaller than
  the distance of the exact product to the nearest relevant integer, so
  the float comparison and the integer comparison agree.  Details at
  each definition.
* `analogRead` is an input: each tick receives the reading(s) of the
  tick.  `peakFoundTime[]` is written by the source but never read, and
  `retriggerThresholdInitialDecay[j+1]` (line 535) is written but the
  secondary index never drives a state machine; both are omitted.
-/

namespace Firmware

/-- Table `midiNote[NUM_PADS]` of the source (index 4 is
`MIDI_NOTE_CHIMBAL_CLOSED = 42`). -/
def midiNote (j : Nat) : Nat :=
  [36, 41, 43, 45, 42, 38, 39, 50, 53, 49, 51].getD j 0

/-- Table `threshold[NUM_PADS]` of the source. -/
def threshold (j : Nat) : Nat :=
  [120, 45, 230, 150, 80, 55, 40, 35, 35, 35, 35].getD j 0

/-- Table `retriggerThreshold[NUM_PADS]` of the source. -/
def retriggerThreshold (j : Nat) : Nat :=
  [900, 950, 950, 950, 900, 550, 100, 950, 950, 680, 680].getD j 0

/-- Constant `minVelocity = 10` of the source. -/
def minVelocity : Int := 10

/-- Constant `maxVelocity = 127` of the source. -/
def maxVelocity : Int := 127

/-- Constant `PEAK_DETECTION_WINDOW_MS = 7` of the source. -/
def PEAK_DETECTION_WINDOW_MS : Nat := 7

/-- Constant `SILENT_DEBOUNCE_MS = 30` of the source. -/
def SILENT_DEBOUNCE_MS : Nat := 30

/-- Constant `REPIQUE_CHECK_MS = 180` of the source. -/
def REPIQUE_CHECK_MS : Nat := 180

/-- Constant `CHOKE_CONFIRMATION_TIME_MS = 20` of the source. -/
def CHOKE_CONFIRMATION_TIME_MS : Nat := 20

/-- Constant `HIGH_VELOCITY_THRESHOLD = 115` of the source. -/
def HIGH_VELOCITY_THRESHOLD : Int := 115

/-- Constant `LOW_VELOCITY_DISCARD_THRESHOLD = 29` of the source. -/
def LOW_VELOCITY_DISCARD_THRESHOLD : Int := 29

/-- Constant `CROSSTALK_WINDOW_MS = 130` of the source. -/
def CROSSTALK_WINDOW_MS : Nat := 130

/-- Unsigned 32-bit subtraction: the value of the C expression `a - b`
on `unsigned long` operands, used by every elapsed-time test of the
source (`currentMillis - stateChangeTime[j]`, `currentMillis -
lastHighVelocityMidiTime`).  For `a, b < 2^32` this is exactly
`(a - b) mod 2^32`. -/
def usub (a b : Nat) : Nat := (a + 2 ^ 32 - b % 2 ^ 32) % 2 ^ 32

/-- Arduino `map(x, in_min, in_max, out_min, out_max)`:
`(x - in_min) * (out_max - out_min) / (in_max - in_min) + out_min` with
C `long` division, which truncates toward zero (`Int.tdiv`). -/
def arduinoMap (x inMin inMax outMin outMax : Int) : Int :=
  Int.tdiv ((x - inMin) * (outMax - outMin)) (inMax - inMin) + outMin

/-- Arduino `constrain(x, lo, hi) = x < lo ? lo : (x > hi ? hi : x)`. -/
def constrain (x lo hi : Int) : Int :=
  if x < lo then lo else if x > hi then hi else x

/-- The source expression `round(peakSensorValues[j] * gainFactor[j])`
with `gainFactor = {1,1,1,1,1,1,1,1,7,1,1.2}`.  Gains 1 and 7 are exact
in float.  For gain 1.2 and `peak ≤ 1023`: the exact product `1.2·peak`
has fractional part in {0, .2, .4, .6, .8} (never .5), and the float
product differs from it by less than 5·10⁻⁵, so `round` of the float
equals round-to-nearest of the exact rational, which is
`(12·peak + 5) / 10` in `Nat` division. -/
def sensorValueAdjusted (j peak : Nat) : Nat :=
  if j = 8 then 7 * peak
  else if j = 10 then (12 * peak + 5) / 10
  else peak

/-- The velocity computation of the source (lines 299-301, 456-457):
`constrain(map(round(peak*gain), threshold[j], 1023, minVelocity,
maxVelocity), minVelocity, maxVelocity)`. -/
def velocityOf (j peak : Nat) : Int :=
  constrain
    (arduinoMap (sensorValueAdjusted j peak) (threshold j) 1023 minVelocity maxVelocity)
    minVelocity maxVelocity

/-- The source expression (lines 342, 534)
`max((int)(threshold[j] * 1.5), min(retriggerThreshold[j], maxPeak * 1.5))`.
All three float quantities are multiples of 0.5 below 2^11, hence exact
in float; the final assignment to `int` truncates, and truncation
distributes over the integer-valued `max`/`min`, giving
`max(⌊3t/2⌋, min(ceiling, ⌊3·maxPeak/2⌋))` in `Nat` arithmetic. -/
def retriggerInitialOf (j maxPeak : Nat) : Nat :=
  max (3 * threshold j / 2) (min (retriggerThreshold j) (3 * maxPeak / 2))

/-- The decayed retrigger threshold of `PAD_STATE_REPIQUE_CHECK`
(lines 381-382, 569-570):
`max((long)(threshold[j]*1.5), map(elapsed, 0, REPIQUE_CHECK_MS,
retriggerThresholdInitialDecay[j], threshold[j]))`.  The cast
`(long)(threshold[j]*1.5)` truncates the exact float product, giving
`3·threshold/2` in `Nat` division. -/
def currentRetriggerThreshold (j elapsed retriggerInitial : Nat) : Int :=
  max ((3 * threshold j / 2 : Nat) : Int)
    (arduinoMap elapsed 0 REPIQUE_CHECK_MS retriggerInitial (threshold j))

/-- Enum `PadState` of the source. -/
inductive PState where
  | idle
  | peakDetection
  | silentDebounce
  | repiqueCheck
  | chokeConfirmation
deriving DecidableEq, Repr

/-- One three-byte frame written to the serial port: `0x90` (note-on) or
`0x80` (note-off) status, note number, velocity byte. -/
inductive MidiEvent where
  | noteOn (note : Nat) (velocity : Int)
  | noteOff (note : Nat) (velocity : Int)
deriving DecidableEq, Repr

/-- The `...Playing` globals of the source, updated by `midiNoteOn` and
`midiNoteOff`. -/
structure PlayingFlags where
  conducaoBorda : Bool
  conducaoCupula : Bool
  ataqueBorda : Bool
  ataqueCupula : Bool
  caixa : Bool
  aroCaixa : Bool
  chimbalClosed : Bool
  chimbalOpen : Bool
deriving DecidableEq, Repr

/-- Process-wide mutable globals of the source:
`lastHighVelocityMidiTime`, the pedal state pair (modelled as `Bool`,
`true` = LOW = pressed), and the playing flags. -/
structure Globals where
  lastHighVelocityMidiTime : Nat
  pedalChimbalLow : Bool
  lastPedalChimbalLow : Bool
  flags : PlayingFlags
deriving DecidableEq, Repr

/-- Per-pad mutable state: `padState[j]`, `stateChangeTime[j]`,
`peakSensorValues[j]` (and `[j+1]` for the dual-zone machines) and
`retriggerThresholdInitialDecay[j]`. -/
structure PadVars where
  padState : PState
  stateChangeTime : Nat
  peakPrimary : Nat
  peakSecondary : Nat
  retriggerInitialDecay : Nat
deriving DecidableEq, Repr

/-- Flag updates of `midiNoteOn` (lines 654-661), in source order. -/
def noteOnFlags (f : PlayingFlags) (note : Nat) : PlayingFlags :=
  if note = 50 then { f with conducaoBorda := true }
  else if note = 53 then { f with conducaoCupula := true }
  else if note = 49 then { f with ataqueBorda := true }
  else if note = 51 then { f with ataqueCupula := true }
  else if note = 38 then { f with caixa := true }
  else if note = 39 then { f with aroCaixa := true }
  else if note = 42 then { f with chimbalClosed := true }
  else if note = 46 then { f with chimbalOpen := true }
  else f

/-- Flag updates of `midiNoteOff` (lines 677-684), in source order. -/
def noteOffFlags (f : PlayingFlags) (note : Nat) : PlayingFlags :=
  if note = 50 then { f with conducaoBorda := false }
  else if note = 53 then { f with conducaoCupula := false }
  else if note = 49 then { f with ataqueBorda := false }
  else if note = 51 then { f with ataqueCupula := false }
  else if note = 38 then { f with caixa := false }
  else if note = 39 then { f with aroCaixa := false }
  else if note = 42 then { f with chimbalClosed := false }
  else if note = 46 then { f with chimbalOpen := false }
  else f

/-- Function `midiNoteOn(note, velocity)`: emits one note-on frame and
updates the playing flags. -/
def midiNoteOn (g : Globals) (note : Nat) (velocity : Int) : Globals × MidiEvent :=
  ({ g with flags := noteOnFlags g.flags note }, .noteOn note velocity)

/-- Function `midiNoteOff(note, velocity)`: emits one note-off frame and
updates the playing flags. -/
def midiNoteOff (g : Globals) (note : Nat) (velocity : Int) : Globals × MidiEvent :=
  ({ g with flags := noteOffFlags g.flags note }, .noteOff note velocity)

/-- The note-emission block of the simple-pad fire path
(lines 317-327): the hi-hat pad (j = 4, `CHIMBAL_PAD`) selects
closed/open by the pedal and silences the opposite voice when its flag
is set; every other simple pad emits its `midiNote[j]`. -/
def fireSimple (j : Nat) (velocity : Int) (g : Globals) : Globals × List MidiEvent :=
  if j = 4 then
    if g.pedalChimbalLow then
      let a := midiNoteOn g 42 velocity
      if a.1.flags.chimbalOpen then
        let b := midiNoteOff a.1 46 0
        (b.1, [a.2, b.2])
      else (a.1, [a.2])
    else
      let a := midiNoteOn g 46 velocity
      if a.1.flags.chimbalClosed then
        let b := midiNoteOff a.1 42 0
        (b.1, [a.2, b.2])
      else (a.1, [a.2])
  else
    let a := midiNoteOn g (midiNote j) velocity
    (a.1, [a.2])

/-- The dual-zone classification block (lines 472-516).  For the snare
pair (j = 5): rimshot if `Pp > 600` and `Ps > 2*threshold[6]`, else rim
if `Pp < 1000` and `Ps * 1.1 > Pp`, else head.  The float test
`Ps * 1.1 > Pp` equals `11*Ps > 10*Pp`: for `Ps ≤ 1023` the float
product differs from the exact `1.1·Ps` by well under half the float
spacing, and when `1.1·Ps` is an integer (10 divides Ps) the float
product rounds to exactly that integer, so the strict comparison with
the integer `Pp` is decided identically.  For the cymbal pairs
(j = 7, 9): bell if `Pp < 1000` and `Ps > Pp`; else the potential-choke
test `Ps < Pp * 0.05` equals `20*Ps < Pp` by the same rounding argument
for the factor 0.05; on potential choke the source emits note-off for
both voices and (line 507) leaves the commented-out transition to
`PAD_STATE_CHOKE_CONFIRMATION` disabled; else bow. -/
def classifyDual (j pp ps : Nat) (vp vs : Int) (g : Globals) : Globals × List MidiEvent :=
  if j = 5 then
    if pp > 600 ∧ ps > 2 * threshold 6 then
      let a := midiNoteOn g 40 (max vp vs)
      (a.1, [a.2])
    else if pp < 1000 ∧ 11 * ps > 10 * pp then
      let a := midiNoteOn g (midiNote 6) vs
      (a.1, [a.2])
    else
      let a := midiNoteOn g (midiNote 5) vp
      (a.1, [a.2])
  else
    if pp < 1000 ∧ ps > pp then
      let a := midiNoteOn g (midiNote (j + 1)) vs
      (a.1, [a.2])
    else if 20 * ps < pp then
      let a := midiNoteOff g (midiNote j) 0
      let b := midiNoteOff a.1 (midiNote (j + 1)) 0
      (b.1, [a.2, b.2])
    else
      let a := midiNoteOn g (midiNote j) vp
      (a.1, [a.2])

/-- One tick of the simple-pad state machine (first `for` loop of
`loop()`, lines 261-399) for pad `j` with reading `reading` at time
`now`. -/
def stepSimple (j now reading : Nat) (p : PadVars) (g : Globals) :
    PadVars × Globals × List MidiEvent :=
  match p.padState with
  | .idle =>
      if reading > threshold j then
        ({ p with peakPrimary := reading, padState := .peakDetection,
                  stateChangeTime := now }, g, [])
      else (p, g, [])
  | .peakDetection =>
      if usub now p.stateChangeTime < PEAK_DETECTION_WINDOW_MS then
        if reading > p.peakPrimary then ({ p with peakPrimary := reading }, g, [])
        else (p, g, [])
      else
        if p.peakPrimary > threshold j then
          if velocityOf j p.peakPrimary < LOW_VELOCITY_DISCARD_THRESHOLD ∧
              usub now g.lastHighVelocityMidiTime < CROSSTALK_WINDOW_MS then
            ({ p with padState := .idle }, g, [])
          else
            let fired := fireSimple j (velocityOf j p.peakPrimary) g
            let g2 :=
              if velocityOf j p.peakPrimary > HIGH_VELOCITY_THRESHOLD ∧ midiNote j > 36 then
                { fired.1 with lastHighVelocityMidiTime := now }
              else fired.1
            ({ p with padState := .silentDebounce, stateChangeTime := now,
                      retriggerInitialDecay := retriggerInitialOf j p.peakPrimary },
             g2, fired.2)
        else ({ p with padState := .idle }, g, [])
  | .silentDebounce =>
      if usub now p.stateChangeTime ≥ SILENT_DEBOUNCE_MS then
        ({ p with padState := .repiqueCheck, stateChangeTime := now }, g, [])
      else (p, g, [])
  | .repiqueCheck =>
      if usub now p.stateChangeTime ≥ REPIQUE_CHECK_MS then
        ({ p with padState := .idle }, g, [])
      else
        if (reading : Int) >
            currentRetriggerThreshold j (usub now p.stateChangeTime) p.retriggerInitialDecay then
          ({ p with peakPrimary := reading, padState := .peakDetection,
                    stateChangeTime := now }, g, [])
        else (p, g, [])
  | .chokeConfirmation => ({ p with padState := .idle }, g, [])

/-- One tick of the dual-zone state machine (second `for` loop of
`loop()`, lines 413-637) for primary index `j` (5, 7 or 9) with primary
and secondary readings `rp`, `rs` at time `now`.  In the
`PAD_STATE_CHOKE_CONFIRMATION` case the source updates both peaks from
fresh reads first, resolves once the confirmation time elapsed, and
resets both peaks to 0 on every resolution branch (lines 626-627). -/
def stepDual (j now rp rs : Nat) (p : PadVars) (g : Globals) :
    PadVars × Globals × List MidiEvent :=
  match p.padState with
  | .idle =>
      if rp > threshold j ∨ rs > threshold (j + 1) then
        ({ p with peakPrimary := rp, peakSecondary := rs,
                  padState := .peakDetection, stateChangeTime := now }, g, [])
      else (p, g, [])
  | .peakDetection =>
      if usub now p.stateChangeTime < PEAK_DETECTION_WINDOW_MS then
        ({ p with peakPrimary := max p.peakPrimary rp,
                  peakSecondary := max p.peakSecondary rs }, g, [])
      else
        if p.peakPrimary ≤ threshold j ∧ p.peakSecondary ≤ threshold (j + 1) then
          ({ p with padState := .idle }, g, [])
        else
          if max (velocityOf (j + 1) p.peakSecondary) (velocityOf j p.peakPrimary) <
                LOW_VELOCITY_DISCARD_THRESHOLD ∧
              usub now g.lastHighVelocityMidiTime < CROSSTALK_WINDOW_MS then
            ({ p with padState := .idle }, g, [])
          else
            let fired := classifyDual j p.peakPrimary p.peakSecondary
                (velocityOf j p.peakPrimary) (velocityOf (j + 1) p.peakSecondary) g
            let g2 :=
              if max (velocityOf (j + 1) p.peakSecondary) (velocityOf j p.peakPrimary) >
                    HIGH_VELOCITY_THRESHOLD ∧ midiNote j > 36 then
                { fired.1 with lastHighVelocityMidiTime := now }
              else fired.1
            ({ p with padState := .silentDebounce, stateChangeTime := now,
                      retriggerInitialDecay :=
                        retriggerInitialOf j (max p.peakPrimary p.peakSecondary) },
             g2, fired.2)
  | .silentDebounce =>
      if usub now p.stateChangeTime ≥ SILENT_DEBOUNCE_MS then
        ({ p with padState := .repiqueCheck, stateChangeTime := now }, g, [])
      else (p, g, [])
  | .repiqueCheck =>
      if usub now p.stateChangeTime ≥ REPIQUE_CHECK_MS then
        ({ p with padState := .idle }, g, [])
      else
        if ((max rp rs : Nat) : Int) >
            currentRetriggerThreshold j (usub now p.stateChangeTime) p.retriggerInitialDecay then
          ({ p with peakPrimary := rp, peakSecondary := rs,
                    padState := .peakDetection, stateChangeTime := now }, g, [])
        else (p, g, [])
  | .chokeConfirmation =>
      if j = 7 ∨ j = 9 then
        if usub now p.stateChangeTime ≥ CHOKE_CONFIRMATION_TIME_MS then
          if 20 * max p.peakSecondary rs < max p.peakPrimary rp ∨
              max p.peakSecondary rs < 20 then
            let a := midiNoteOff g (midiNote j) 0
            let b := midiNoteOff a.1 (midiNote (j + 1)) 0
            ({ p with padState := .idle, peakPrimary := 0, peakSecondary := 0 },
             b.1, [a.2, b.2])
          else if max p.peakPrimary rp > threshold j ∨
              max p.peakSecondary rs > threshold (j + 1) then
            ({ p with padState := .peakDetection, stateChangeTime := now,
                      peakPrimary := 0, peakSecondary := 0 }, g, [])
          else
            ({ p with padState := .idle, peakPrimary := 0, peakSecondary := 0 }, g, [])
        else
          ({ p with peakPrimary := max p.peakPrimary rp,
                    peakSecondary := max p.peakSecondary rs }, g, [])
      else
        ({ p with padState := .idle, peakPrimary := 0, peakSecondary := 0 }, g, [])

/-- The hi-hat pedal block at the top of `loop()` (lines 239-253):
on an edge, pressing silences the open voice if sounding and emits the
pedal-chick note-on with fixed velocity 30; releasing silences the
closed voice if sounding.  `pedalChimbalState` is refreshed every
tick. -/
def processPedal (currentLow : Bool) (g : Globals) : Globals × List MidiEvent :=
  let r :=
    if currentLow ≠ g.lastPedalChimbalLow then
      let g1 := { g with lastPedalChimbalLow := currentLow }
      if currentLow then
        if g1.flags.chimbalOpen then
          let a := midiNoteOff g1 46 0
          let b := midiNoteOn a.1 44 30
          (b.1, [a.2, b.2])
        else
          let b := midiNoteOn g1 44 30
          (b.1, [b.2])
      else
        if g1.flags.chimbalClosed then
          let a := midiNoteOff g1 42 0
          (a.1, [a.2])
        else (g1, ([] : List MidiEvent))
    else (g, ([] : List MidiEvent))
  ({ r.1 with pedalChimbalLow := currentLow }, r.2)

/-- Folding `stepSimple` over a finite stream of (time, reading)
inputs, collecting the emitted frames in order. -/
def runSimple (j : Nat) (inputs : List (Nat × Nat)) (p : PadVars) (g : Globals) :
    PadVars × Globals × List MidiEvent :=
  match inputs with
  | [] => (p, g, [])
  | i :: rest =>
      let r := stepSimple j i.1 i.2 p g
      let r2 := runSimple j rest r.1 r.2.1
      (r2.1, r2.2.1, r.2.2 ++ r2.2.2)

/-- Folding `stepDual` over a finite stream of (time, primary reading,
secondary reading) inputs. -/
def runDual (j : Nat) (inputs : List (Nat × Nat × Nat)) (p : PadVars) (g : Globals) :
    PadVars × Globals × List MidiEvent :=
  match inputs with
  | [] => (p, g, [])
  | i :: rest =>
      let r := stepDual j i.1 i.2.1 i.2.2 p g
      let r2 := runDual j rest r.1 r.2.1
      (r2.1, r2.2.1, r.2.2 ++ r2.2.2)

/-- Globals after `setup()`: `lastHighVelocityMidiTime = 0`, pedal
HIGH (released), all playing flags false. -/
def initialGlobals : Globals :=
  ⟨0, false, false, ⟨false, false, false, false, false, false, false, false⟩⟩

/-- Velocity-byte discipline of one frame: note-on frames carry a
velocity in `[minVelocity, maxVelocity]`, note-off frames carry 0. -/
def velOK : MidiEvent → Prop
  | .noteOn _ v => minVelocity ≤ v ∧ v ≤ maxVelocity
  | .noteOff _ v => v = 0

/-! Helper lemmas. -/

lemma threshold_le (j : Nat) : threshold j ≤ 230 := by
  unfold threshold
  rcases j with _ | _ | _ | _ | _ | _ | _ | _ | _ | _ | _ | j <;>
    simp [List.getD_cons_succ, List.getD_cons_zero, List.getD_nil]

lemma velocityOf_mem (j peak : Nat) :
    minVelocity ≤ velocityOf j peak ∧ velocityOf j peak ≤ maxVelocity := by
  unfold velocityOf constrain minVelocity maxVelocity
  split
  · omega
  · split <;> omega

lemma fireSimple_lastHigh (j : Nat) (v : Int) (g : Globals) :
    (fireSimple j v g).1.lastHighVelocityMidiTime = g.lastHighVelocityMidiTime := by
  simp only [fireSimple, midiNoteOn, midiNoteOff]
  repeat' split
  all_goals rfl

lemma fireSimple_ne_nil (j : Nat) (v : Int) (g : Globals) :
    (fireSimple j v g).2 ≠ [] := by
  simp only [fireSimple, midiNoteOn, midiNoteOff]
  repeat' split
  all_goals simp

lemma fireSimple_velOK (j : Nat) (v : Int) (g : Globals)
    (hv : minVelocity ≤ v ∧ v ≤ maxVelocity) :
    ∀ e ∈ (fireSimple j v g).2, velOK e := by
  simp only [fireSimple, midiNoteOn, midiNoteOff]
  repeat' split
  all_goals intro e he
  all_goals simp only [List.mem_cons, List.not_mem_nil, or_false] at he
  all_goals try obtain rfl | rfl := he
  all_goals first | exact hv | rfl

lemma classifyDual_lastHigh (j pp ps : Nat) (vp vs : Int) (g : Globals) :
    (classifyDual j pp ps vp vs g).1.lastHighVelocityMidiTime =
      g.lastHighVelocityMidiTime := by
  simp only [classifyDual, midiNoteOn, midiNoteOff]
  repeat' split
  all_goals rfl

lemma classifyDual_ne_nil (j pp ps : Nat) (vp vs : Int) (g : Globals) :
    (classifyDual j pp ps vp vs g).2 ≠ [] := by
  simp only [classifyDual, midiNoteOn, midiNoteOff]
  repeat' split
  all_goals simp

lemma classifyDual_velOK (j pp ps : Nat) (vp vs : Int) (g : Globals)
    (hvp : minVelocity ≤ vp ∧ vp ≤ maxVelocity)
    (hvs : minVelocity ≤ vs ∧ vs ≤ maxVelocity) :
    ∀ e ∈ (classifyDual j pp ps vp vs g).2, velOK e := by
  simp only [classifyDual, midiNoteOn, midiNoteOff]
  repeat' split
  all_goals intro e he
  all_goals simp only [List.mem_cons, List.not_mem_nil, or_false] at he
  all_goals try obtain rfl | rfl := he
  all_goals first
    | exact hvp
    | exact hvs
    | exact ⟨le_trans hvp.1 (le_max_left _ _), max_le hvp.2 hvs.2⟩
    | rfl

/-- Reduction of the simple-pad tick on the fire path: peak window
ended, peak validated, crosstalk filter not triggered. -/
lemma stepSimple_fire (j now reading : Nat) (p : PadVars) (g : Globals)
    (hstate : p.padState = .peakDetection)
    (h7 : ¬ usub now p.stateChangeTime < PEAK_DETECTION_WINDOW_MS)
    (hpk : p.peakPrimary > threshold j)
    (hnd : ¬ (velocityOf j p.peakPrimary < LOW_VELOCITY_DISCARD_THRESHOLD ∧
        usub now g.lastHighVelocityMidiTime < CROSSTALK_WINDOW_MS)) :
    stepSimple j now reading p g =
      ({ p with padState := .silentDebounce, stateChangeTime := now,
                retriggerInitialDecay := retriggerInitialOf j p.peakPrimary },
       (if velocityOf j p.peakPrimary > HIGH_VELOCITY_THRESHOLD ∧ midiNote j > 36 then
          { (fireSimple j (velocityOf j p.peakPrimary) g).1 with
              lastHighVelocityMidiTime := now }
        else (fireSimple j (velocityOf j p.peakPrimary) g).1),
       (fireSimple j (velocityOf j p.peakPrimary) g).2) := by
  obtain ⟨st, sct, pp, ps, ri⟩ := p
  dsimp only at hstate h7 hpk hnd ⊢
  subst hstate
  simp only [stepSimple]
  rw [if_neg h7, if_pos hpk, if_neg hnd]

/-- Reduction of the simple-pad tick on the crosstalk-discard path. -/
lemma stepSimple_discard (j now reading : Nat) (p : PadVars) (g : Globals)
    (hstate : p.padState = .peakDetection)
    (h7 : ¬ usub now p.stateChangeTime < PEAK_DETECTION_WINDOW_MS)
    (hpk : p.peakPrimary > threshold j)
    (hd : velocityOf j p.peakPrimary < LOW_VELOCITY_DISCARD_THRESHOLD ∧
        usub now g.lastHighVelocityMidiTime < CROSSTALK_WINDOW_MS) :
    stepSimple j now reading p g = ({ p with padState := .idle }, g, []) := by
  obtain ⟨st, sct, pp, ps, ri⟩ := p
  dsimp only at hstate h7 hpk hd ⊢
  subst hstate
  simp only [stepSimple]
  rw [if_neg h7, if_pos hpk, if_pos hd]

/-- Reduction of the dual-zone tick on the fire path. -/
lemma stepDual_fire (j now rp rs : Nat) (p : PadVars) (g : Globals)
    (hstate : p.padState = .peakDetection)
    (h7 : ¬ usub now p.stateChangeTime < PEAK_DETECTION_WINDOW_MS)
    (hval : ¬ (p.peakPrimary ≤ threshold j ∧ p.peakSecondary ≤ threshold (j + 1)))
    (hnd : ¬ (max (velocityOf (j + 1) p.peakSecondary) (velocityOf j p.peakPrimary) <
          LOW_VELOCITY_DISCARD_THRESHOLD ∧
        usub now g.lastHighVelocityMidiTime < CROSSTALK_WINDOW_MS)) :
    stepDual j now rp rs p g =
      ({ p with padState := .silentDebounce, stateChangeTime := now,
                retriggerInitialDecay :=
                  retriggerInitialOf j (max p.peakPrimary p.peakSecondary) },
       (if max (velocityOf (j + 1) p.peakSecondary) (velocityOf j p.peakPrimary) >
            HIGH_VELOCITY_THRESHOLD ∧ midiNote j > 36 then
          { (classifyDual j p.peakPrimary p.peakSecondary (velocityOf j p.peakPrimary)
              (velocityOf (j + 1) p.peakSecondary) g).1 with
              lastHighVelocityMidiTime := now }
        else (classifyDual j p.peakPrimary p.peakSecondary (velocityOf j p.peakPrimary)
            (velocityOf (j + 1) p.peakSecondary) g).1),
       (classifyDual j p.peakPrimary p.peakSecondary (velocityOf j p.peakPrimary)
          (velocityOf (j + 1) p.peakSecondary) g).2) := by
  obtain ⟨st, sct, pp, ps, ri⟩ := p
  dsimp only at hstate h7 hval hnd ⊢
  subst hstate
  simp only [stepDual]
  rw [if_neg h7, if_neg hval, if_neg hnd]

/-- Reduction of the dual-zone tick on the crosstalk-discard path. -/
lemma stepDual_discard (j now rp rs : Nat) (p : PadVars) (g : Globals)
    (hstate : p.padState = .peakDetection)
    (h7 : ¬ usub now p.stateChangeTime < PEAK_DETECTION_WINDOW_MS)
    (hval : ¬ (p.peakPrimary ≤ threshold j ∧ p.peakSecondary ≤ threshold (j + 1)))
    (hd : max (velocityOf (j + 1) p.peakSecondary) (velocityOf j p.peakPrimary) <
          LOW_VELOCITY_DISCARD_THRESHOLD ∧
        usub now g.lastHighVelocityMidiTime < CROSSTALK_WINDOW_MS) :
    stepDual j now rp rs p g = ({ p with padState := .idle }, g, []) := by
  obtain ⟨st, sct, pp, ps, ri⟩ := p
  dsimp only at hstate h7 hval hd ⊢
  subst hstate
  simp only [stepDual]
  rw [if_neg h7, if_neg hval, if_pos hd]

/-- A simple pad in IDLE ignores a reading at or below its threshold. -/
lemma stepSimple_idle_low (j now reading : Nat) (p : PadVars) (g : Globals)
    (hstate : p.padState = .idle) (hr : reading ≤ threshold j) :
    stepSimple j now reading p g = (p, g, []) := by
  obtain ⟨st, sct, pp, ps, ri⟩ := p
  dsimp only at hstate ⊢
  subst hstate
  simp only [stepSimple]
  rw [if_neg (by omega)]

/-- A dual-zone pad in IDLE ignores readings at or below the two
thresholds. -/
lemma stepDual_idle_low (j now rp rs : Nat) (p : PadVars) (g : Globals)
    (hstate : p.padState = .idle)
    (hrp : rp ≤ threshold j) (hrs : rs ≤ threshold (j + 1)) :
    stepDual j now rp rs p g = (p, g, []) := by
  obtain ⟨st, sct, pp, ps, ri⟩ := p
  dsimp only at hstate ⊢
  subst hstate
  simp only [stepDual]
  rw [if_neg (by omega)]

/-- The clamped Arduino map hits `maxVelocity` whenever the adjusted
peak reaches the top of the input range. -/
lemma velocityOf_of_adj_ge (j peak : Nat) (h : 1023 ≤ sensorValueAdjusted j peak) :
    velocityOf j peak = maxVelocity := by
  have ht : threshold j ≤ 230 := threshold_le j
  have hta : threshold j ≤ sensorValueAdjusted j peak := by omega
  unfold velocityOf arduinoMap minVelocity maxVelocity
  have h1 : ((sensorValueAdjusted j peak : Int) - (threshold j : Int)) * (127 - 10) =
      (((sensorValueAdjusted j peak - threshold j) * 117 : Nat) : Int) := by
    have hs : ((sensorValueAdjusted j peak - threshold j : Nat) : Int) =
        (sensorValueAdjusted j peak : Int) - (threshold j : Int) := by omega
    rw [Nat.cast_mul, hs]
    norm_num
  have h2 : ((1023 : Int) - (threshold j : Int)) = ((1023 - threshold j : Nat) : Int) := by
    omega
  rw [h1, h2, ← Int.ofNat_tdiv]
  have hq : 117 ≤ (sensorValueAdjusted j peak - threshold j) * 117 / (1023 - threshold j) := by
    have hd : 0 < 1023 - threshold j := by omega
    rw [Nat.le_div_iff_mul_le hd]
    calc 117 * (1023 - threshold j) = (1023 - threshold j) * 117 := by ring
    _ ≤ (sensorValueAdjusted j peak - threshold j) * 117 :=
        Nat.mul_le_mul_right 117 (by omega)
  unfold constrain
  split
  · omega
  · split
    · rfl
    · omega

/-! Claims. -/

/-- Claim C1, evaluated at the failing input: a ride-pad (pair 7/8)
peak window resolving with a validated non-bell hit whose secondary
peak satisfies `Ps < Pp * 0.05` (here `Pp = 400`, `Ps = 10`, `now =
200`, no prior loud hit) does emit note-off for both the bow (50) and
bell (53) voices and records `stateEntryTime := now`, but the pad then
transitions to SILENT_DEBOUNCE, not to CHOKE_CONFIRM: the assignment
`padState[j] = PAD_STATE_CHOKE_CONFIRMATION` is commented out in the
source (line 507) against its own `@todo`/`@warning` documentation. -/
theorem c1_potential_choke_goes_to_silent_debounce :
    (stepDual 7 200 0 0 ⟨.peakDetection, 0, 400, 10, 0⟩ initialGlobals).2.2 =
        [.noteOff 50 0, .noteOff 53 0] ∧
    (stepDual 7 200 0 0 ⟨.peakDetection, 0, 400, 10, 0⟩ initialGlobals).1.stateChangeTime =
        200 ∧
    (stepDual 7 200 0 0 ⟨.peakDetection, 0, 400, 10, 0⟩ initialGlobals).1.padState =
        .silentDebounce ∧
    (stepDual 7 200 0 0 ⟨.peakDetection, 0, 400, 10, 0⟩ initialGlobals).1.padState ≠
        .chokeConfirmation := by
  decide

/-- Claim C2: once the velocities of a fired hit are known (peak window
over, hit validated), the pad returns to IDLE with no event emitted if
and only if the maximum computed velocity is below
LOW_VELOCITY_DISCARD_THRESHOLD and `now - lastHighVelocityMidiTime <
CROSSTALK_WINDOW_MS`; otherwise at least one frame is emitted and
`lastHighVelocityMidiTime` becomes `now` exactly when the maximum
velocity exceeds HIGH_VELOCITY_THRESHOLD and `midiNote[j] > 36`.
Stated for the simple-pad machine and the dual-zone machine. -/
theorem c2_crosstalk_gate :
    (∀ j now reading p g, j ≤ 4 → p.padState = .peakDetection →
      ¬ usub now p.stateChangeTime < PEAK_DETECTION_WINDOW_MS →
      p.peakPrimary > threshold j →
      (((stepSimple j now reading p g).1.padState = .idle ∧
          (stepSimple j now reading p g).2.2 = []) ↔
        (velocityOf j p.peakPrimary < LOW_VELOCITY_DISCARD_THRESHOLD ∧
          usub now g.lastHighVelocityMidiTime < CROSSTALK_WINDOW_MS)) ∧
      (¬ (velocityOf j p.peakPrimary < LOW_VELOCITY_DISCARD_THRESHOLD ∧
            usub now g.lastHighVelocityMidiTime < CROSSTALK_WINDOW_MS) →
        (stepSimple j now reading p g).2.2 ≠ [] ∧
        (stepSimple j now reading p g).2.1.lastHighVelocityMidiTime =
          (if velocityOf j p.peakPrimary > HIGH_VELOCITY_THRESHOLD ∧ midiNote j > 36
            then now else g.lastHighVelocityMidiTime))) ∧
    (∀ j now rp rs p g, (j = 5 ∨ j = 7 ∨ j = 9) → p.padState = .peakDetection →
      ¬ usub now p.stateChangeTime < PEAK_DETECTION_WINDOW_MS →
      ¬ (p.peakPrimary ≤ threshold j ∧ p.peakSecondary ≤ threshold (j + 1)) →
      (((stepDual j now rp rs p g).1.padState = .idle ∧
          (stepDual j now rp rs p g).2.2 = []) ↔
        (max (velocityOf (j + 1) p.peakSecondary) (velocityOf j p.peakPrimary) <
            LOW_VELOCITY_DISCARD_THRESHOLD ∧
          usub now g.lastHighVelocityMidiTime < CROSSTALK_WINDOW_MS)) ∧
      (¬ (max (velocityOf (j + 1) p.peakSecondary) (velocityOf j p.peakPrimary) <
            LOW_VELOCITY_DISCARD_THRESHOLD ∧
          usub now g.lastHighVelocityMidiTime < CROSSTALK_WINDOW_MS) →
        (stepDual j now rp rs p g).2.2 ≠ [] ∧
        (stepDual j now rp rs p g).2.1.lastHighVelocityMidiTime =
          (if max (velocityOf (j + 1) p.peakSecondary) (velocityOf j p.peakPrimary) >
              HIGH_VELOCITY_THRESHOLD ∧ midiNote j > 36
            then now else g.lastHighVelocityMidiTime))) := by
  constructor
  · intro j now reading p g hj hstate h7 hpk
    by_cases hd : velocityOf j p.peakPrimary < LOW_VELOCITY_DISCARD_THRESHOLD ∧
        usub now g.lastHighVelocityMidiTime < CROSSTALK_WINDOW_MS
    · rw [stepSimple_discard j now reading p g hstate h7 hpk hd]
      exact ⟨by simp [hd], fun hnd => absurd hd hnd⟩
    · rw [stepSimple_fire j now reading p g hstate h7 hpk hd]
      refine ⟨iff_of_false (fun h => fireSimple_ne_nil _ _ _ h.2) hd, fun _ => ?_⟩
      refine ⟨fireSimple_ne_nil _ _ _, ?_⟩
      by_cases hh : velocityOf j p.peakPrimary > HIGH_VELOCITY_THRESHOLD ∧ midiNote j > 36
      · simp [hh]
      · simp [hh, fireSimple_lastHigh]
  · intro j now rp rs p g hj hstate h7 hval
    by_cases hd : max (velocityOf (j + 1) p.peakSecondary) (velocityOf j p.peakPrimary) <
        LOW_VELOCITY_DISCARD_THRESHOLD ∧
        usub now g.lastHighVelocityMidiTime < CROSSTALK_WINDOW_MS
    · rw [stepDual_discard j now rp rs p g hstate h7 hval hd]
      exact ⟨by simp [hd], fun hnd => absurd hd hnd⟩
    · rw [stepDual_fire j now rp rs p g hstate h7 hval hd]
      refine ⟨iff_of_false (fun h => classifyDual_ne_nil _ _ _ _ _ _ h.2) hd, fun _ => ?_⟩
      refine ⟨classifyDual_ne_nil _ _ _ _ _ _, ?_⟩
      by_cases hh : max (velocityOf (j + 1) p.peakSecondary) (velocityOf j p.peakPrimary) >
          HIGH_VELOCITY_THRESHOLD ∧ midiNote j > 36
      · rw [if_pos hh, if_pos hh]
      · rw [if_neg hh, if_neg hh]
        exact classifyDual_lastHigh _ _ _ _ _ _

/-- Witness for C2: a weak tom1 hit (peak 231, velocity 10) at `now =
60` with a loud event recorded at time 20 is discarded, and a ride hit
(peaks 400/10, velocities 53/14) at `now = 300` with no prior loud
event emits frames and leaves `lastHighVelocityMidiTime` at 0. -/
theorem c2_crosstalk_gate_witness :
    ((stepSimple 2 60 0 ⟨.peakDetection, 0, 231, 0, 0⟩
        ⟨20, false, false, ⟨false, false, false, false, false, false, false, false⟩⟩).1.padState =
          .idle ∧
      (stepSimple 2 60 0 ⟨.peakDetection, 0, 231, 0, 0⟩
        ⟨20, false, false, ⟨false, false, false, false, false, false, false, false⟩⟩).2.2 =
          []) ∧
    ((stepDual 7 300 0 0 ⟨.peakDetection, 0, 400, 10, 0⟩ initialGlobals).2.2 ≠ [] ∧
      (stepDual 7 300 0 0
          ⟨.peakDetection, 0, 400, 10, 0⟩ initialGlobals).2.1.lastHighVelocityMidiTime = 0) := by
  constructor
  · exact (c2_crosstalk_gate.1 2 60 0 _ _ (by decide) rfl (by decide) (by decide)).1.mpr
      (by decide)
  · have h := (c2_crosstalk_gate.2 7 300 0 0 ⟨.peakDetection, 0, 400, 10, 0⟩ initialGlobals
      (by decide) rfl (by decide) (by decide)).2 (by decide)
    exact ⟨h.1, by rw [h.2]; decide⟩

/-- Claim C3 is refuted on the code: for pad 1 (threshold 45) the cast
`(long)(threshold[j] * 1.5)` truncates to 67, so with the reachable
`retriggerInitialDecay = 69` (a hit of peak 46 produces it, second
conjunct) the effective retrigger threshold at elapsed 179 ms is 67,
which is below `⌈45 * 1.5⌉ = (3*45+1)/2 = 68`. -/
theorem c3_ceiling_bound_counterexample :
    currentRetriggerThreshold 1 179 69 = 67 ∧
    retriggerInitialOf 1 46 = 69 ∧
    ¬ (((3 * 45 + 1) / 2 : Nat) : Int) ≤ currentRetriggerThreshold 1 179 69 := by
  decide

/-- Claim C3 (amended): during REPIQUE_CHECK the effective retrigger
threshold a reading is compared against is at least
`⌊threshold * 1.5⌋ = 3 * threshold / 2` (truncated, as the source cast
does), for every pad and every elapsed time below REPIQUE_CHECK_MS. -/
theorem c3_retrigger_floor_bound :
    ∀ j elapsed ri, elapsed < REPIQUE_CHECK_MS →
      ((3 * threshold j / 2 : Nat) : Int) ≤ currentRetriggerThreshold j elapsed ri :=
  fun _ _ _ _ => le_max_left _ _

/-- Witness for the amended C3 at pad 1, elapsed 179, decay start 69. -/
theorem c3_retrigger_floor_bound_witness :
    ((3 * threshold 1 / 2 : Nat) : Int) ≤ currentRetriggerThreshold 1 179 69 :=
  c3_retrigger_floor_bound 1 179 69 (by decide)

/-- Claim C4 is refuted on the code: pressing the hi-hat pedal while
the open voice sounds emits a note-off frame whose velocity byte is 0,
which is below `minVelocity = 10`; so not every velocity byte on the
wire lies in `[minVelocity, maxVelocity]`. -/
theorem c4_velocity_bytes_counterexample :
    MidiEvent.noteOff 46 0 ∈
      (processPedal true
        ⟨0, false, false, ⟨false, false, false, false, false, false, false, true⟩⟩).2 ∧
    ¬ minVelocity ≤ 0 := by
  decide

/-- Claim C4 (amended): every note-on frame the program emits (from any
simple-pad tick, any dual-zone tick, or the pedal handler) carries a
velocity in `[minVelocity, maxVelocity]`; note-off frames always carry
velocity 0. -/
theorem c4_velocity_bytes_amended :
    (∀ j now reading p g, ∀ e ∈ (stepSimple j now reading p g).2.2, velOK e) ∧
    (∀ j now rp rs p g, ∀ e ∈ (stepDual j now rp rs p g).2.2, velOK e) ∧
    (∀ b g, ∀ e ∈ (processPedal b g).2, velOK e) := by
  refine ⟨?_, ?_, ?_⟩
  · intro j now reading p g e he
    obtain ⟨st, sct, pp, ps, ri⟩ := p
    cases st <;> simp only [stepSimple] at he <;> repeat' split at he
    all_goals try dsimp only at he
    all_goals first
      | exact absurd he (List.not_mem_nil e)
      | exact fireSimple_velOK _ _ _ (velocityOf_mem _ _) e he
  · intro j now rp rs p g e he
    obtain ⟨st, sct, pp, ps, ri⟩ := p
    cases st <;> simp only [stepDual, midiNoteOff] at he <;> repeat' split at he
    all_goals try dsimp only at he
    all_goals first
      | exact absurd he (List.not_mem_nil e)
      | exact classifyDual_velOK _ _ _ _ _ _ (velocityOf_mem _ _) (velocityOf_mem _ _) e he
      | (simp only [List.mem_cons, List.not_mem_nil, or_false] at he
         obtain rfl | rfl := he <;> rfl)
  · intro b g e he
    simp only [processPedal, midiNoteOn, midiNoteOff] at he
    repeat' split at he
    all_goals try dsimp only at he
    all_goals simp only [List.mem_cons, List.not_mem_nil, or_false] at he
    all_goals first
      | exact absurd he (fun h => h)
      | (obtain rfl | rfl := he
         all_goals first | rfl | exact ⟨by decide, by decide⟩)

/-- Witness for the amended C4: the pedal-chick note-on of the pedal
handler carries velocity 30, inside `[minVelocity, maxVelocity]`. -/
theorem c4_velocity_bytes_amended_witness :
    velOK (MidiEvent.noteOn 44 30) :=
  c4_velocity_bytes_amended.2.2 true
    ⟨0, false, false, ⟨false, false, false, false, false, false, false, true⟩⟩
    (MidiEvent.noteOn 44 30) (by decide)

/-- Claim C5: the snare pair (5/6) classification at resolution of a
validated, non-discarded hit — rimshot (note 40, velocity
`max(Vp, Vs)`) when `Pp > 600` and `Ps > 2 * threshold[6]`, else rim
(note 39, velocity `Vs`) when `Pp < 1000` and `Ps * 1.1 > Pp` (exactly
`11 * Ps > 10 * Pp`), else head (note 38, velocity `Vp`). -/
theorem c5_snare_classification :
    ∀ now rp rs p g, p.padState = .peakDetection →
    ¬ usub now p.stateChangeTime < PEAK_DETECTION_WINDOW_MS →
    ¬ (p.peakPrimary ≤ threshold 5 ∧ p.peakSecondary ≤ threshold 6) →
    ¬ (max (velocityOf 6 p.peakSecondary) (velocityOf 5 p.peakPrimary) <
        LOW_VELOCITY_DISCARD_THRESHOLD ∧
      usub now g.lastHighVelocityMidiTime < CROSSTALK_WINDOW_MS) →
    (stepDual 5 now rp rs p g).2.2 =
      (if p.peakPrimary > 600 ∧ p.peakSecondary > 2 * threshold 6 then
        [.noteOn 40 (max (velocityOf 5 p.peakPrimary) (velocityOf 6 p.peakSecondary))]
      else if p.peakPrimary < 1000 ∧ 11 * p.peakSecondary > 10 * p.peakPrimary then
        [.noteOn (midiNote 6) (velocityOf 6 p.peakSecondary)]
      else [.noteOn (midiNote 5) (velocityOf 5 p.peakPrimary)]) := by
  intro now rp rs p g hstate h7 hval hnd
  rw [stepDual_fire 5 now rp rs p g hstate h7 hval hnd]
  by_cases h1 : p.peakPrimary > 600 ∧ p.peakSecondary > 2 * threshold 6
  · simp [classifyDual, midiNoteOn, h1]
  · by_cases h2 : p.peakPrimary < 1000 ∧ 11 * p.peakSecondary > 10 * p.peakPrimary
    · simp [classifyDual, midiNoteOn, h1, h2]
    · simp [classifyDual, midiNoteOn, h1, h2]

/-- Witness for C5: a hard simultaneous head/rim strike `Pp = 720`,
`Ps = 160` (velocities 90 and 24) emits the rimshot voice 40 with
velocity 90. -/
theorem c5_snare_classification_witness :
    (stepDual 5 200 0 0 ⟨.peakDetection, 0, 720, 160, 0⟩ initialGlobals).2.2 =
      [.noteOn 40 90] := by
  have h := c5_snare_classification 200 0 0 ⟨.peakDetection, 0, 720, 160, 0⟩ initialGlobals
    rfl (by decide) (by decide) (by decide)
  rw [h]
  decide

/-- Claim C6 is refuted on the code in its peaks-retained part: a ride
pad in CHOKE_CONFIRMATION with retained peaks 400/100 resolving at
`now = 20` takes the real-strike branch to PEAK_DETECTION, but the
source resets both peaks to 0 (lines 626-627) instead of retaining
them, so the resulting `peakPrimary` is 0, not 400. -/
theorem c6_peaks_reset_counterexample :
    (stepDual 7 20 0 0 ⟨.chokeConfirmation, 0, 400, 100, 0⟩ initialGlobals).1.padState =
        .peakDetection ∧
    (stepDual 7 20 0 0 ⟨.chokeConfirmation, 0, 400, 100, 0⟩ initialGlobals).1.peakPrimary =
        0 ∧
    (0 : Nat) ≠ 400 := by
  decide

/-- Claim C6 (amended): for a ride/crash pad in CHOKE_CONFIRMATION,
once `now - stateEntryTime ≥ CHOKE_CONFIRMATION_TIME_MS`, with the
peaks updated by the current readings: if `peakSecondary <
peakPrimary * 0.05` (exactly `20 * Ps < Pp`) or `peakSecondary < 20`,
note-off is emitted for both voices and the pad goes to IDLE with peaks
reset to 0; else if either peak exceeds its threshold the pad goes to
PEAK_DETECTION with `stateEntryTime := now` and the peaks reset to 0
(not retained); else the pad goes to IDLE with peaks reset. -/
theorem c6_choke_confirmation_amended :
    ∀ j now rp rs p g, (j = 7 ∨ j = 9) → p.padState = .chokeConfirmation →
    usub now p.stateChangeTime ≥ CHOKE_CONFIRMATION_TIME_MS →
    ((20 * max p.peakSecondary rs < max p.peakPrimary rp ∨ max p.peakSecondary rs < 20) →
      (stepDual j now rp rs p g).2.2 =
          [.noteOff (midiNote j) 0, .noteOff (midiNote (j + 1)) 0] ∧
        (stepDual j now rp rs p g).1.padState = .idle ∧
        (stepDual j now rp rs p g).1.peakPrimary = 0 ∧
        (stepDual j now rp rs p g).1.peakSecondary = 0) ∧
    (¬ (20 * max p.peakSecondary rs < max p.peakPrimary rp ∨ max p.peakSecondary rs < 20) →
      (max p.peakPrimary rp > threshold j ∨ max p.peakSecondary rs > threshold (j + 1)) →
      (stepDual j now rp rs p g).1.padState = .peakDetection ∧
        (stepDual j now rp rs p g).1.stateChangeTime = now ∧
        (stepDual j now rp rs p g).1.peakPrimary = 0 ∧
        (stepDual j now rp rs p g).1.peakSecondary = 0 ∧
        (stepDual j now rp rs p g).2.2 = []) ∧
    (¬ (20 * max p.peakSecondary rs < max p.peakPrimary rp ∨ max p.peakSecondary rs < 20) →
      ¬ (max p.peakPrimary rp > threshold j ∨ max p.peakSecondary rs > threshold (j + 1)) →
      (stepDual j now rp rs p g).1.padState = .idle ∧
        (stepDual j now rp rs p g).1.peakPrimary = 0 ∧
        (stepDual j now rp rs p g).1.peakSecondary = 0 ∧
        (stepDual j now rp rs p g).2.2 = []) := by
  intro j now rp rs p g hj hstate h20
  obtain ⟨st, sct, pp, ps, ri⟩ := p
  dsimp only at hstate h20 ⊢
  subst hstate
  simp only [stepDual, midiNoteOff]
  rw [if_pos hj, if_pos h20]
  refine ⟨fun hck => ?_, fun hck hact => ?_, fun hck hact => ?_⟩
  · rw [if_pos hck]
    exact ⟨rfl, rfl, rfl, rfl⟩
  · rw [if_neg hck, if_pos hact]
    exact ⟨rfl, rfl, rfl, rfl, rfl⟩
  · rw [if_neg hck, if_neg hact]
    exact ⟨rfl, rfl, rfl, rfl⟩

/-- Witness for the amended C6: a confirmed choke on the ride (peaks
400/10 at resolution) emits note-off for voices 50 and 53 and returns
the pad to IDLE with both peaks reset to 0. -/
theorem c6_choke_confirmation_amended_witness :
    (stepDual 7 30 0 0 ⟨.chokeConfirmation, 0, 400, 10, 0⟩ initialGlobals).2.2 =
        [.noteOff (midiNote 7) 0, .noteOff (midiNote 8) 0] ∧
      (stepDual 7 30 0 0 ⟨.chokeConfirmation, 0, 400, 10, 0⟩ initialGlobals).1.padState =
        .idle ∧
      (stepDual 7 30 0 0 ⟨.chokeConfirmation, 0, 400, 10, 0⟩ initialGlobals).1.peakPrimary =
        0 ∧
      (stepDual 7 30 0 0 ⟨.chokeConfirmation, 0, 400, 10, 0⟩ initialGlobals).1.peakSecondary =
        0 :=
  (c6_choke_confirmation_amended 7 30 0 0 ⟨.chokeConfirmation, 0, 400, 10, 0⟩ initialGlobals
    (Or.inl rfl) rfl (by decide)).1 (by decide)

/-- Claim C7: for a plain simple pad (j ≤ 3) the emitted note-on frame
of a validated, non-discarded hit carries exactly the clamped linear
map of the adjusted peak from `[threshold[j], 1023]` onto
`[minVelocity, maxVelocity]`; a hit whose peak is `threshold + 1` on a
gain-1 pad maps to `minVelocity`; and whenever the adjusted peak
reaches 1023 the velocity is `maxVelocity`. -/
theorem c7_velocity_mapping :
    (∀ j now reading p g, j ≤ 3 → p.padState = .peakDetection →
      ¬ usub now p.stateChangeTime < PEAK_DETECTION_WINDOW_MS →
      p.peakPrimary > threshold j →
      ¬ (velocityOf j p.peakPrimary < LOW_VELOCITY_DISCARD_THRESHOLD ∧
          usub now g.lastHighVelocityMidiTime < CROSSTALK_WINDOW_MS) →
      (stepSimple j now reading p g).2.2 =
        [.noteOn (midiNote j)
          (constrain
            (arduinoMap (sensorValueAdjusted j p.peakPrimary) (threshold j) 1023
              minVelocity maxVelocity) minVelocity maxVelocity)]) ∧
    (∀ j, j < 11 → j ≠ 8 → j ≠ 10 → velocityOf j (threshold j + 1) = minVelocity) ∧
    (∀ j peak, 1023 ≤ sensorValueAdjusted j peak → velocityOf j peak = maxVelocity) := by
  refine ⟨?_, ?_, ?_⟩
  · intro j now reading p g hj hstate h7 hpk hnd
    rw [stepSimple_fire j now reading p g hstate h7 hpk hnd]
    have hj4 : ¬ j = 4 := by omega
    simp [fireSimple, midiNoteOn, hj4, velocityOf]
  · intro j h11 h8 h10
    interval_cases j
    all_goals first
      | decide
      | exact absurd rfl h8
  · intro j peak h
    exact velocityOf_of_adj_ge j peak h

/-- Witness for C7: a kick hit of peak 500 emits velocity 59 by the
mapping formula; pad 1 at peak `threshold + 1 = 46` maps to
`minVelocity`; the ride bell (gain 7) at peak 147 has adjusted peak
1029 and maps to `maxVelocity`. -/
theorem c7_velocity_mapping_witness :
    (stepSimple 0 200 0 ⟨.peakDetection, 0, 500, 0, 0⟩ initialGlobals).2.2 =
      [.noteOn (midiNote 0)
        (constrain
          (arduinoMap (sensorValueAdjusted 0 500) (threshold 0) 1023
            minVelocity maxVelocity) minVelocity maxVelocity)] ∧
    velocityOf 1 (threshold 1 + 1) = minVelocity ∧
    velocityOf 8 147 = maxVelocity :=
  ⟨c7_velocity_mapping.1 0 200 0 ⟨.peakDetection, 0, 500, 0, 0⟩ initialGlobals
      (by decide) rfl (by decide) (by decide) (by decide),
    c7_velocity_mapping.2.1 1 (by decide) (by decide) (by decide),
    c7_velocity_mapping.2.2 8 147 (by decide)⟩

/-- Claim C8 is refuted on the code: a snare hit validated through the
rim sensor alone (`Pp = 0`, `Ps = 41`, so `maxPeakThisHit = 41`) stores
`retriggerThresholdInitialDecay = max(⌊55*1.5⌋, min(550, ⌊41*1.5⌋)) =
max(82, 61) = 82`, while the claimed formula with the ceiling
`⌈55 * 1.5⌉ = (3*55+1)/2 = 83` gives 83. -/
theorem c8_ceiling_formula_counterexample :
    (stepDual 5 200 0 0 ⟨.peakDetection, 0, 0, 41, 0⟩ initialGlobals).1.retriggerInitialDecay =
        82 ∧
    max (((3 * 55 + 1) / 2 : Nat)) (min 550 (3 * 41 / 2)) = 83 ∧
    (82 : Nat) ≠ 83 := by
  decide

/-- Claim C8 (amended): when a hit fires, the stored decay start value
is `max(⌊threshold * 1.5⌋, min(retriggerThreshold[j],
⌊maxPeakThisHit * 1.5⌋))` — the threshold term truncated as the source
cast does, not rounded up — with `maxPeakThisHit` the primary peak for
simple pads and the larger of the two peaks for dual-zone pads. -/
theorem c8_retrigger_initial_formula :
    (∀ j now reading p g, p.padState = .peakDetection →
      ¬ usub now p.stateChangeTime < PEAK_DETECTION_WINDOW_MS →
      p.peakPrimary > threshold j →
      ¬ (velocityOf j p.peakPrimary < LOW_VELOCITY_DISCARD_THRESHOLD ∧
          usub now g.lastHighVelocityMidiTime < CROSSTALK_WINDOW_MS) →
      (stepSimple j now reading p g).1.retriggerInitialDecay =
        max (3 * threshold j / 2)
          (min (retriggerThreshold j) (3 * p.peakPrimary / 2))) ∧
    (∀ j now rp rs p g, p.padState = .peakDetection →
      ¬ usub now p.stateChangeTime < PEAK_DETECTION_WINDOW_MS →
      ¬ (p.peakPrimary ≤ threshold j ∧ p.peakSecondary ≤ threshold (j + 1)) →
      ¬ (max (velocityOf (j + 1) p.peakSecondary) (velocityOf j p.peakPrimary) <
            LOW_VELOCITY_DISCARD_THRESHOLD ∧
          usub now g.lastHighVelocityMidiTime < CROSSTALK_WINDOW_MS) →
      (stepDual j now rp rs p g).1.retriggerInitialDecay =
        max (3 * threshold j / 2)
          (min (retriggerThreshold j) (3 * max p.peakPrimary p.peakSecondary / 2))) := by
  constructor
  · intro j now reading p g hstate h7 hpk hnd
    rw [stepSimple_fire j now reading p g hstate h7 hpk hnd]
    rfl
  · intro j now rp rs p g hstate h7 hval hnd
    rw [stepDual_fire j now rp rs p g hstate h7 hval hnd]
    rfl

/-- Witness for the amended C8: a pad-1 hit of peak 46 stores
`max(⌊45*1.5⌋, min(950, ⌊46*1.5⌋)) = max(67, 69) = 69`. -/
theorem c8_retrigger_initial_formula_witness :
    (stepSimple 1 200 0 ⟨.peakDetection, 0, 46, 0, 0⟩ initialGlobals).1.retriggerInitialDecay =
      max (3 * threshold 1 / 2) (min (retriggerThreshold 1) (3 * 46 / 2)) :=
  c8_retrigger_initial_formula.1 1 200 0 ⟨.peakDetection, 0, 46, 0, 0⟩ initialGlobals
    rfl (by decide) (by decide) (by decide)

/-- Claim C9: a pad starting in IDLE fed any finite stream of readings
in which every reading is at or below the corresponding channel
threshold stays in IDLE (state, peaks and globals unchanged) and emits
no frame; in particular a reading exactly equal to the threshold never
triggers onset, since the onset comparison of the source is strict. -/
theorem c9_subthreshold_stream_stays_idle :
    (∀ j inputs p g, p.padState = .idle →
      (∀ x ∈ inputs, (x : Nat × Nat).2 ≤ threshold j) →
      runSimple j inputs p g = (p, g, [])) ∧
    (∀ j inputs p g, p.padState = .idle →
      (∀ x ∈ inputs, (x : Nat × Nat × Nat).2.1 ≤ threshold j ∧
        x.2.2 ≤ threshold (j + 1)) →
      runDual j inputs p g = (p, g, [])) := by
  constructor
  · intro j inputs
    induction inputs with
    | nil => intro p g _ _; rfl
    | cons i rest ih =>
        intro p g hstate hall
        simp only [runSimple]
        rw [stepSimple_idle_low j i.1 i.2 p g hstate (hall i (List.mem_cons_self i rest))]
        rw [ih p g hstate (fun x hx => hall x (List.mem_cons_of_mem i hx))]
        rfl
  · intro j inputs
    induction inputs with
    | nil => intro p g _ _; rfl
    | cons i rest ih =>
        intro p g hstate hall
        simp only [runDual]
        rw [stepDual_idle_low j i.1 i.2.1 i.2.2 p g hstate
          (hall i (List.mem_cons_self i rest)).1 (hall i (List.mem_cons_self i rest)).2]
        rw [ih p g hstate (fun x hx => hall x (List.mem_cons_of_mem i hx))]
        rfl

/-- Witness for C9: pad 0 fed three readings at its threshold 120, and
the snare pair fed readings exactly at thresholds 55 and 40, stay in
IDLE and emit nothing. -/
theorem c9_subthreshold_stream_stays_idle_witness :
    runSimple 0 [(0, 120), (1, 120), (2, 119)] ⟨.idle, 0, 0, 0, 0⟩ initialGlobals =
        (⟨.idle, 0, 0, 0, 0⟩, initialGlobals, []) ∧
    runDual 5 [(0, 55, 40), (1, 54, 40)] ⟨.idle, 0, 0, 0, 0⟩ initialGlobals =
        (⟨.idle, 0, 0, 0, 0⟩, initialGlobals, []) :=
  ⟨c9_subthreshold_stream_stays_idle.1 0 [(0, 120), (1, 120), (2, 119)]
      ⟨.idle, 0, 0, 0, 0⟩ initialGlobals rfl (by decide),
    c9_subthreshold_stream_stays_idle.2 5 [(0, 55, 40), (1, 54, 40)]
      ⟨.idle, 0, 0, 0, 0⟩ initialGlobals rfl (by decide)⟩

/-- Claim C10: `lastHighVelocityMidiTime` starts at 0, so on any
execution in which it is still 0, a validated hit whose computed
velocity is below LOW_VELOCITY_DISCARD_THRESHOLD and whose peak window
resolves at `now < CROSSTALK_WINDOW_MS` is discarded — the pad returns
to IDLE and no frame is emitted — because `now - 0 < 130` holds with no
prior loud hit. -/
theorem c10_crosstalk_discard_after_reset :
    ∀ j now reading p g, g.lastHighVelocityMidiTime = 0 → now < CROSSTALK_WINDOW_MS →
    p.padState = .peakDetection →
    ¬ usub now p.stateChangeTime < PEAK_DETECTION_WINDOW_MS →
    p.peakPrimary > threshold j →
    velocityOf j p.peakPrimary < LOW_VELOCITY_DISCARD_THRESHOLD →
    stepSimple j now reading p g = ({ p with padState := .idle }, g, []) := by
  intro j now reading p g hlast hnow hstate h7 hpk hv
  apply stepSimple_discard j now reading p g hstate h7 hpk
  refine ⟨hv, ?_⟩
  rw [hlast]
  unfold CROSSTALK_WINDOW_MS at hnow ⊢
  unfold usub
  omega

/-- Witness for C10: a kick hit of peak 121 (velocity 10) resolving at
`now = 50` on the freshly initialized globals is discarded. -/
theorem c10_crosstalk_discard_after_reset_witness :
    stepSimple 0 50 0 ⟨.peakDetection, 0, 121, 0, 0⟩ initialGlobals =
      (⟨.idle, 0, 121, 0, 0⟩, initialGlobals, []) :=
  c10_crosstalk_discard_after_reset 0 50 0 ⟨.peakDetection, 0, 121, 0, 0⟩ initialGlobals
    rfl (by decide) rfl (by decide) (by decide) (by decide)

end Firmware
